import Mathlib

set_option linter.unusedVariables false

/-! Shallow embedding of the iceradar bot core (src/bot.py): the geo store
    (POIs, photos, confirmations, subscriptions), the freshness policy, the
    confirmation verifier, the contribution limiter, the geofence registry and
    the notification fan-out.  Timestamps are rational seconds since an
    arbitrary epoch; the geodesic distance of the PostGIS collaborator is an
    abstract parameter `d : Point → Point → ℚ` (meters). -/

namespace IceRadar

/-- A geographic point (latitude, longitude), as stored in the geography
    columns. -/
structure Point where
  lat : ℚ
  lon : ℚ
deriving DecidableEq

/-- Timestamps, in seconds. -/
abbrev Time := ℚ

/-- Abstract geodesic distance (meters), supplied by PostGIS
    (ST_Distance / ST_DWithin). -/
abbrev Dist := Point → Point → ℚ

-- ===== constants (src/bot.py lines 190-194) =====

def CONFIRM_RADIUS_MI : ℚ := 1/2

def FRESH_LOCATION_MINUTES : ℚ := 10

def SUBSCRIPTION_TTL_HOURS : ℚ := 12

def ADD_LIMIT_COUNT : Nat := 2

/-- The SQL interval '30 days' used in the subscription queries, in seconds. -/
def thirtyDays : ℚ := 30 * 86400

/-- miles_to_meters (src/bot.py line 571). -/
def miles_to_meters (mi : ℚ) : ℚ := mi * (1609344/1000)

-- ===== records (schema created in open_db_pool, src/bot.py lines 66-177) =====

/-- A row of table poi (title and category are both set to the category
    label by finalize_poi_creation). -/
structure Poi where
  id : Nat
  title : String
  category : String
  description : Option String
  point : Point
  created_by : Option Nat
  created_at : Time
deriving DecidableEq

/-- A row of table poi_photo; `seq` models the insertion sequence
    (BIGSERIAL id / created_at default NOW()) that ORDER BY created_at uses. -/
structure Photo where
  poi_id : Nat
  file_id : String
  user_id : Option Nat
  seq : Nat
deriving DecidableEq

/-- A row of table poi_confirmation (unique on (poi_id, user_id)). -/
structure Confirmation where
  poi_id : Nat
  user_id : Nat
  created_at : Time
deriving DecidableEq

/-- A row of table subscriptions. -/
structure Subscription where
  id : Nat
  tg_user_id : Nat
  center : Point
  radius_m : ℚ
  is_active : Bool
  created_at : Time
  last_refreshed_at : Time
deriving DecidableEq

/-- The relational store. -/
structure Store where
  pois : List Poi
  photos : List Photo
  confirmations : List Confirmation
  subscriptions : List Subscription
deriving DecidableEq

def Store.empty : Store := ⟨[], [], [], []⟩

/-- The ephemeral in-memory last_loc map (src/bot.py line 567):
    tg user id ↦ (lat, lon, receipt time). -/
abbrev LastLoc := Nat → Option (ℚ × ℚ × Time)

-- ===== freshness policy =====

/-- is_location_fresh (src/bot.py lines 574-579). -/
def is_location_fresh (ll : LastLoc) (now : Time) (uid : Nat) : Bool :=
  match ll uid with
  | none => false
  | some (_, _, ts) => decide (now - ts ≤ FRESH_LOCATION_MINUTES * 60)

-- ===== store queries =====

/-- SELECT ... FROM poi WHERE p.id = $3 (src/bot.py lines 1178-1192). -/
def find_poi (s : Store) (poi_id : Nat) : Option Poi :=
  s.pois.find? (fun p => p.id == poi_id)

/-- The created_at values of the confirmations of one POI. -/
def poi_conf_times (s : Store) (poi_id : Nat) : List Time :=
  (s.confirmations.filter (fun c => c.poi_id == poi_id)).map (fun c => c.created_at)

/-- COALESCE(MAX(pc.created_at), p.created_at): the effective activity
    timestamp of a POI (src/bot.py lines 1184-1187 and line 728). -/
def poi_last_ts (s : Store) (p : Poi) : Time :=
  (poi_conf_times s p.id).max?.getD p.created_at

/-- SELECT COUNT(*) FROM poi_confirmation WHERE poi_id=$1
    (src/bot.py line 1218). -/
def confCount (s : Store) (poi_id : Nat) : Nat :=
  (s.confirmations.filter (fun c => c.poi_id == poi_id)).length

/-- Whether a (poi, user) confirmation row already exists — the unique index
    consulted by ON CONFLICT (poi_id, user_id) DO NOTHING. -/
def hasConf (s : Store) (poi_id user_id : Nat) : Bool :=
  s.confirmations.any (fun c => c.poi_id == poi_id && c.user_id == user_id)

-- ===== confirmation verifier (_do_confirm, src/bot.py lines 1164-1223) =====

inductive ConfirmResult where
  | staleLocation : ConfirmResult
  | notFound : ConfirmResult
  | outdated : ConfirmResult
  | selfConfirmationDenied : ConfirmResult
  | tooFar : ConfirmResult
  | confirmed : Nat → ConfirmResult
deriving DecidableEq

/-- _do_confirm (src/bot.py lines 1164-1223).  The result is `none` exactly
    when the unguarded dict access last_loc[user_id] (line 1173) would raise;
    otherwise it is the user-visible outcome paired with the store after the
    attempt.  `user_row_id` is the app_user row id returned by ensure_user,
    `tg_uid` the Telegram id that keys the last_loc map. -/
def do_confirm (d : Dist) (ll : LastLoc) (now : Time) (s : Store)
    (user_row_id tg_uid poi_id : Nat) : Option (ConfirmResult × Store) :=
  if is_location_fresh ll now tg_uid then
    match ll tg_uid with
    | none => none
    | some (user_lat, user_lon, _) =>
      match find_poi s poi_id with
      | none => some (.notFound, s)
      | some p =>
        let last_ts := poi_last_ts s p
        if decide (now - last_ts > 12 * 3600) then
          some (.outdated, s)
        else if p.created_by == some user_row_id then
          some (.selfConfirmationDenied, s)
        else if decide (d ⟨user_lat, user_lon⟩ p.point > miles_to_meters CONFIRM_RADIUS_MI) then
          some (.tooFar, s)
        else
          let s' := if hasConf s poi_id user_row_id then s
                    else { s with confirmations := s.confirmations ++ [⟨poi_id, user_row_id, now⟩] }
          some (.confirmed (confCount s' poi_id), s')
  else
    some (.staleLocation, s)

-- ===== contribution limiter and POI lifecycle (finalize_poi_creation) =====

/-- SELECT COUNT(*) FROM poi WHERE created_by=$1 AND created_at >= NOW() -
    INTERVAL '12 hours' (src/bot.py lines 915-922). -/
def recent_poi_count (s : Store) (user_row_id : Nat) (now : Time) : Nat :=
  (s.pois.filter (fun p =>
    p.created_by == some user_row_id && decide (p.created_at ≥ now - 12 * 3600))).length

/-- The BIGSERIAL id the next INSERT INTO poi receives. -/
def nextPoiId (s : Store) : Nat :=
  (s.pois.map (fun p => p.id)).foldr max 0 + 1

/-- The BIGSERIAL id the next INSERT INTO subscriptions receives. -/
def nextSubId (s : Store) : Nat :=
  (s.subscriptions.map (fun sub => sub.id)).foldr max 0 + 1

/-- The photo rows inserted by the loop over file_ids (src/bot.py
    lines 937-941), with consecutive insertion sequence numbers. -/
def mkPhotos (poi_id user_row_id seq0 : Nat) : List String → List Photo
  | [] => []
  | fid :: rest => ⟨poi_id, fid, some user_row_id, seq0⟩ :: mkPhotos poi_id user_row_id (seq0 + 1) rest

-- ===== geofence registry =====

/-- The lazy-expire UPDATE: SET is_active=false WHERE is_active AND
    last_refreshed_at < NOW() - INTERVAL '30 days' (src/bot.py
    lines 1076-1083 and 1032-1039). -/
def lazy_expire (now : Time) (s : Store) : Store :=
  { s with subscriptions := s.subscriptions.map (fun sub =>
      if sub.is_active && decide (sub.last_refreshed_at < now - thirtyDays) then
        { sub with is_active := false }
      else sub) }

/-- The recipient-skip test of the fan-out loop: Python
    `if exclude_tg_id and tgid == exclude_tg_id: continue` (src/bot.py
    line 1110) — an Optional[int] is truthy iff it is neither None nor 0. -/
def exclude_matches (exclude_tg_id : Option Nat) (tgid : Nat) : Bool :=
  match exclude_tg_id with
  | none => false
  | some e => decide (e ≠ 0) && tgid == e

/-- notify_subscribers (src/bot.py lines 1064-1140): lazy expiry, then
    SELECT DISTINCT tg_user_id over active, 30-day-fresh subscriptions whose
    geofence contains the point, then the dispatch loop that skips the
    excluded id.  Returns the list of notified tg ids and the store after. -/
def notify_subscribers (d : Dist) (now : Time) (s : Store) (pt : Point)
    (exclude_tg_id : Option Nat) : List Nat × Store :=
  let s' := lazy_expire now s
  let matched := ((s'.subscriptions.filter (fun sub =>
      sub.is_active && decide (sub.last_refreshed_at ≥ now - thirtyDays)
        && decide (d sub.center pt ≤ sub.radius_m))).map (fun sub => sub.tg_user_id)).dedup
  (matched.filter (fun tgid => !exclude_matches exclude_tg_id tgid), s')

inductive CreateResult where
  | rateLimited : CreateResult
  | created : Nat → List Nat → CreateResult
deriving DecidableEq

/-- finalize_poi_creation (src/bot.py lines 902-967): the 12h/2-POI limiter
    gate, the poi INSERT, the poi_photo INSERTs over file_ids[:20], then the
    notify_subscribers fan-out excluding the creator's tg id.  On a limited
    attempt the store is returned unchanged. -/
def finalize_poi_creation (d : Dist) (now : Time) (s : Store)
    (user_row_id tg_uid : Nat) (category_label : String) (desc : Option String)
    (pt : Point) (file_ids : List String) : CreateResult × Store :=
  if recent_poi_count s user_row_id now ≥ ADD_LIMIT_COUNT then
    (.rateLimited, s)
  else
    let pid := nextPoiId s
    let s₁ : Store := { s with pois := s.pois ++
      [⟨pid, category_label, category_label, desc, pt, some user_row_id, now⟩] }
    let newPhotos := mkPhotos pid user_row_id s₁.photos.length (file_ids.take 20)
    let s₂ : Store := { s₁ with photos := s₁.photos ++ newPhotos }
    let r := notify_subscribers d now s₂ pt (some tg_uid)
    (.created pid r.1, r.2)

/-- on_track_radius (src/bot.py lines 990-1019): DELETE FROM subscriptions
    WHERE tg_user_id=$1, then INSERT a fresh active row stamped
    last_refreshed_at = NOW() (created_at defaults to NOW() as well). -/
def on_track_radius (now : Time) (s : Store) (uid : Nat) (pt : Point)
    (radius_m : ℚ) : Store :=
  let kept := s.subscriptions.filter (fun sub => sub.tg_user_id != uid)
  { s with subscriptions := kept ++ [⟨nextSubId s, uid, pt, radius_m, true, now, now⟩] }

/-- The UPDATE run by the plain/live location handlers (src/bot.py
    lines 673-683, 798-809, 824-835): re-center, re-activate and re-stamp all
    of the user's subscription rows. -/
def refresh_on_location (now : Time) (s : Store) (uid : Nat) (pt : Point) : Store :=
  { s with subscriptions := s.subscriptions.map (fun sub =>
      if sub.tg_user_id == uid then
        { sub with center := pt, last_refreshed_at := now, is_active := true }
      else sub) }

/-- UPDATE subscriptions SET is_active=false WHERE tg_user_id=$1
    (tracking_toggle off, src/bot.py line 978; unsubscribe, line 1060). -/
def deactivate_tracking (s : Store) (uid : Nat) : Store :=
  { s with subscriptions := s.subscriptions.map (fun sub =>
      if sub.tg_user_id == uid then { sub with is_active := false } else sub) }

/-- has_active_subscription (src/bot.py lines 610-623): EXISTS a row with
    is_active AND last_refreshed_at >= NOW() - INTERVAL '30 days'. -/
def has_active_subscription (now : Time) (s : Store) (uid : Nat) : Bool :=
  s.subscriptions.any (fun sub =>
    sub.tg_user_id == uid && sub.is_active &&
      decide (sub.last_refreshed_at ≥ now - thirtyDays))

/-- The row ORDER BY created_at DESC LIMIT 1 picks for a user
    (src/bot.py lines 592-601). -/
def latest_subscription (s : Store) (uid : Nat) : Option Subscription :=
  (s.subscriptions.filter (fun sub => sub.tg_user_id == uid)).foldl
    (fun acc sub =>
      match acc with
      | none => some sub
      | some b => if decide (sub.created_at > b.created_at) then some sub else some b)
    none

/-- get_subscription_badge (src/bot.py lines 589-608), structurally: `none`
    is the bare red badge for a user with no rows; otherwise the badge's
    green/red flag (taken from is_active alone), the radius in miles and the
    displayed "until" time last_refreshed_at + 12h. -/
def get_subscription_badge (s : Store) (uid : Nat) : Option (Bool × ℚ × Time) :=
  (latest_subscription s uid).map (fun r =>
    (r.is_active, r.radius_m / miles_to_meters 1,
      r.last_refreshed_at + SUBSCRIPTION_TTL_HOURS * 3600))

/-- The WHERE/HAVING filter of the nearby query (on_radius, src/bot.py
    lines 708-731): ST_DWithin within the chosen radius AND effective
    activity timestamp within the trailing 12 hours. -/
def on_radius_keep (d : Dist) (now : Time) (s : Store) (qpt : Point)
    (radius_m : ℚ) (p : Poi) : Bool :=
  decide (d p.point qpt ≤ radius_m) && decide (poi_last_ts s p ≥ now - 12 * 3600)

-- ===== the spec's confirmation state machine (for the refinement claim) =====

inductive ConfirmError where
  | staleLocation : ConfirmError
  | notFound : ConfirmError
  | outdated : ConfirmError
  | selfConfirmationDenied : ConfirmError
  | tooFar : ConfirmError
deriving DecidableEq

/-- Modelled from the spec: the five validation checks of §4.4, evaluated
    strictly in order, the first failing check giving the error: (1) the
    last-known-location exists and is at most 10 minutes old, else
    StaleLocation; (2) the POI exists, else NotFound; (3) the POI is active
    per the 12h effective-activity window, else Outdated; (4) the requester
    is not the creator, else SelfConfirmationDenied; (5) the geodesic
    distance to the POI is at most 0.5 mi, else TooFar; `none` means all
    five checks pass. -/
def spec_confirm_error (d : Dist) (ll : LastLoc) (now : Time) (s : Store)
    (user_row_id tg_uid poi_id : Nat) : Option ConfirmError :=
  match ll tg_uid with
  | none => some .staleLocation
  | some (la, lo, ts) =>
    if ¬ (now - ts ≤ 10 * 60) then some .staleLocation
    else
      match find_poi s poi_id with
      | none => some .notFound
      | some p =>
        if ¬ (now - poi_last_ts s p ≤ 12 * 3600) then some .outdated
        else if p.created_by = some user_row_id then some .selfConfirmationDenied
        else if ¬ (d ⟨la, lo⟩ p.point ≤ miles_to_meters (1/2)) then some .tooFar
        else none

/-- The user-visible result each spec error corresponds to. -/
def ConfirmError.toResult : ConfirmError → ConfirmResult
  | .staleLocation => .staleLocation
  | .notFound => .notFound
  | .outdated => .outdated
  | .selfConfirmationDenied => .selfConfirmationDenied
  | .tooFar => .tooFar

-- ===== concrete fixtures used by witnesses and counterexamples =====

/-- A degenerate geodesic distance: every pair of points at distance 0. -/
def zeroDist : Dist := fun _ _ => 0

/-- A store holding one POI (id 1, created by app_user row 100 at time ts,
    at the origin) and nothing else. -/
def onePoiStore (ts : Time) : Store :=
  ⟨[⟨1, "raid", "raid", none, ⟨0, 0⟩, some 100, ts⟩], [], [], []⟩

/-- A last_loc map where tg user 7 reported the origin at time t and nobody
    else has an entry. -/
def locOf7 (t : Time) : LastLoc :=
  fun u => if u = 7 then some (0, 0, t) else none

-- ===== helper lemmas =====

theorem is_location_fresh_none {ll : LastLoc} {now : Time} {uid : Nat}
    (h : ll uid = none) : is_location_fresh ll now uid = false := by
  simp [is_location_fresh, h]

theorem is_location_fresh_some {ll : LastLoc} {now : Time} {uid : Nat}
    {la lo : ℚ} {ts : Time} (h : ll uid = some (la, lo, ts)) :
    is_location_fresh ll now uid = decide (now - ts ≤ 10 * 60) := by
  simp [is_location_fresh, h, FRESH_LOCATION_MINUTES]

example : do_confirm zeroDist (locOf7 0) 0 (onePoiStore 0) 2 7 1 =
    some (.confirmed 1, ⟨[⟨1, "raid", "raid", none, ⟨0, 0⟩, some 100, 0⟩], [],
      [⟨1, 2, 0⟩], []⟩) := by
  norm_num [do_confirm, is_location_fresh, locOf7, onePoiStore, find_poi,
    poi_last_ts, poi_conf_times, confCount, hasConf, zeroDist, miles_to_meters,
    CONFIRM_RADIUS_MI, FRESH_LOCATION_MINUTES, Store.empty]

example : do_confirm zeroDist (locOf7 0) 0 (onePoiStore 0) 100 7 1 =
    some (.selfConfirmationDenied, onePoiStore 0) := by
  norm_num [do_confirm, is_location_fresh, locOf7, onePoiStore, find_poi,
    poi_last_ts, poi_conf_times, confCount, hasConf, zeroDist, miles_to_meters,
    CONFIRM_RADIUS_MI, FRESH_LOCATION_MINUTES, Store.empty]

example : do_confirm zeroDist (fun _ => none) 0 (onePoiStore 0) 2 7 1 =
    some (.staleLocation, onePoiStore 0) := by
  norm_num [do_confirm, is_location_fresh, onePoiStore, Store.empty]

example : do_confirm zeroDist (locOf7 43200) 43200 (onePoiStore 0) 2 7 1 =
    some (.confirmed 1, ⟨[⟨1, "raid", "raid", none, ⟨0, 0⟩, some 100, 0⟩], [],
      [⟨1, 2, 43200⟩], []⟩) := by
  norm_num [do_confirm, is_location_fresh, locOf7, onePoiStore, find_poi,
    poi_last_ts, poi_conf_times, confCount, hasConf, zeroDist, miles_to_meters,
    CONFIRM_RADIUS_MI, FRESH_LOCATION_MINUTES, Store.empty]

example : do_confirm zeroDist (locOf7 43201) 43201 (onePoiStore 0) 2 7 1 =
    some (.outdated, onePoiStore 0) := by
  norm_num [do_confirm, is_location_fresh, locOf7, onePoiStore, find_poi,
    poi_last_ts, poi_conf_times, confCount, hasConf, zeroDist, miles_to_meters,
    CONFIRM_RADIUS_MI, FRESH_LOCATION_MINUTES, Store.empty]

theorem spec_confirm_error_eq_none (d : Dist) (ll : LastLoc) (now : Time)
    (s : Store) (urid tg pid : Nat) (h : ll tg = none) :
    spec_confirm_error d ll now s urid tg pid = some ConfirmError.staleLocation := by
  unfold spec_confirm_error
  rw [h]

theorem spec_confirm_error_eq_stale (d : Dist) (ll : LastLoc) (now : Time)
    (s : Store) (urid tg pid : Nat) (la lo : ℚ) (ts : Time)
    (h : ll tg = some (la, lo, ts)) (hfresh : ¬ (now - ts ≤ 10 * 60)) :
    spec_confirm_error d ll now s urid tg pid = some ConfirmError.staleLocation := by
  simp only [spec_confirm_error, h]
  exact if_pos hfresh

theorem spec_confirm_error_eq_notFound (d : Dist) (ll : LastLoc) (now : Time)
    (s : Store) (urid tg pid : Nat) (la lo : ℚ) (ts : Time)
    (h : ll tg = some (la, lo, ts)) (hfresh : now - ts ≤ 10 * 60)
    (hfind : find_poi s pid = none) :
    spec_confirm_error d ll now s urid tg pid = some ConfirmError.notFound := by
  simp only [spec_confirm_error, h, hfind]
  rw [if_neg (not_not_intro hfresh)]

theorem spec_confirm_error_eq_poi (d : Dist) (ll : LastLoc) (now : Time)
    (s : Store) (urid tg pid : Nat) (la lo : ℚ) (ts : Time) (p : Poi)
    (h : ll tg = some (la, lo, ts)) (hfresh : now - ts ≤ 10 * 60)
    (hfind : find_poi s pid = some p) :
    spec_confirm_error d ll now s urid tg pid =
      (if ¬ (now - poi_last_ts s p ≤ 12 * 3600) then some ConfirmError.outdated
       else if p.created_by = some urid then some ConfirmError.selfConfirmationDenied
       else if ¬ (d ⟨la, lo⟩ p.point ≤ miles_to_meters (1/2)) then some ConfirmError.tooFar
       else none) := by
  simp only [spec_confirm_error, h, hfind]
  rw [if_neg (not_not_intro hfresh)]

theorem do_confirm_eq_notFound (d : Dist) (ll : LastLoc) (now : Time) (s : Store)
    (urid tg pid : Nat) (la lo : ℚ) (ts : Time)
    (hf : is_location_fresh ll now tg = true) (h : ll tg = some (la, lo, ts))
    (hfind : find_poi s pid = none) :
    do_confirm d ll now s urid tg pid = some (ConfirmResult.notFound, s) := by
  simp only [do_confirm, hf, h, hfind, if_true]

theorem do_confirm_eq_poi (d : Dist) (ll : LastLoc) (now : Time) (s : Store)
    (urid tg pid : Nat) (la lo : ℚ) (ts : Time) (p : Poi)
    (hf : is_location_fresh ll now tg = true) (h : ll tg = some (la, lo, ts))
    (hfind : find_poi s pid = some p) :
    do_confirm d ll now s urid tg pid =
      (if decide (now - poi_last_ts s p > 12 * 3600) then some (ConfirmResult.outdated, s)
       else if p.created_by == some urid then some (ConfirmResult.selfConfirmationDenied, s)
       else if decide (d ⟨la, lo⟩ p.point > miles_to_meters CONFIRM_RADIUS_MI) then
         some (ConfirmResult.tooFar, s)
       else
         let s' := if hasConf s pid urid then s
                   else { s with confirmations := s.confirmations ++ [⟨pid, urid, now⟩] }
         some (ConfirmResult.confirmed (confCount s' pid), s')) := by
  simp only [do_confirm, hf, h, hfind, if_true]

-- ===== C1 =====

/-- C1: Confirm evaluates the five validation checks strictly in the spec's
    order — (1) fresh last-known-location else StaleLocation, (2) POI exists
    else NotFound, (3) POI active within the 12h window else Outdated,
    (4) requester is not the creator else SelfConfirmationDenied, (5) geodesic
    distance at most 0.5 mi else TooFar; the first failing check gives the
    returned error, later checks are short-circuited, and on every error the
    store is unchanged (no Confirmation row written), while if all five
    checks pass the attempt succeeds. -/
theorem confirm_checks_in_order (d : Dist) (ll : LastLoc) (now : Time)
    (s : Store) (urid tg pid : Nat) :
    (∀ e : ConfirmError, spec_confirm_error d ll now s urid tg pid = some e →
      do_confirm d ll now s urid tg pid = some (e.toResult, s)) ∧
    (spec_confirm_error d ll now s urid tg pid = none →
      ∃ n s', do_confirm d ll now s urid tg pid = some (.confirmed n, s')) := by
  constructor
  · intro e he
    cases hll : ll tg with
    | none =>
      rw [spec_confirm_error_eq_none d ll now s urid tg pid hll] at he
      injection he with he
      subst he
      simp [do_confirm, is_location_fresh_none hll, ConfirmError.toResult]
    | some v =>
      obtain ⟨la, lo, ts⟩ := v
      by_cases hfresh : now - ts ≤ 10 * 60
      · have hf : is_location_fresh ll now tg = true := by
          rw [is_location_fresh_some hll]; exact decide_eq_true hfresh
        cases hfind : find_poi s pid with
        | none =>
          rw [spec_confirm_error_eq_notFound d ll now s urid tg pid la lo ts hll hfresh hfind] at he
          injection he with he
          subst he
          rw [do_confirm_eq_notFound d ll now s urid tg pid la lo ts hf hll hfind]
          rfl
        | some p =>
          rw [spec_confirm_error_eq_poi d ll now s urid tg pid la lo ts p hll hfresh hfind] at he
          rw [do_confirm_eq_poi d ll now s urid tg pid la lo ts p hf hll hfind]
          by_cases hout : now - poi_last_ts s p ≤ 12 * 3600
          · rw [if_neg (not_not_intro hout)] at he
            have hout' : ¬ (now - poi_last_ts s p > 12 * 3600) := not_lt.mpr hout
            rw [if_neg (by simpa using hout')]
            by_cases hself : p.created_by = some urid
            · rw [if_pos hself] at he
              injection he with he
              subst he
              rw [if_pos (by simpa using hself)]
              rfl
            · rw [if_neg hself] at he
              rw [if_neg (by simpa using hself)]
              by_cases hfar : d ⟨la, lo⟩ p.point ≤ miles_to_meters (1/2)
              · rw [if_neg (not_not_intro hfar)] at he
                exact absurd he (by simp)
              · rw [if_pos hfar] at he
                injection he with he
                subst he
                have hfar' : d ⟨la, lo⟩ p.point > miles_to_meters CONFIRM_RADIUS_MI := by
                  simpa [CONFIRM_RADIUS_MI] using not_le.mp hfar
                rw [if_pos (by simpa using hfar')]
                rfl
          · rw [if_pos hout] at he
            injection he with he
            subst he
            have hout' : now - poi_last_ts s p > 12 * 3600 := not_le.mp hout
            rw [if_pos (by simpa using hout')]
            rfl
      · rw [spec_confirm_error_eq_stale d ll now s urid tg pid la lo ts hll hfresh] at he
        injection he with he
        subst he
        have hf : is_location_fresh ll now tg = false := by
          rw [is_location_fresh_some hll]; exact decide_eq_false hfresh
        simp [do_confirm, hf, ConfirmError.toResult]
  · intro he
    cases hll : ll tg with
    | none =>
      rw [spec_confirm_error_eq_none d ll now s urid tg pid hll] at he
      exact absurd he (by simp)
    | some v =>
      obtain ⟨la, lo, ts⟩ := v
      by_cases hfresh : now - ts ≤ 10 * 60
      · have hf : is_location_fresh ll now tg = true := by
          rw [is_location_fresh_some hll]; exact decide_eq_true hfresh
        cases hfind : find_poi s pid with
        | none =>
          rw [spec_confirm_error_eq_notFound d ll now s urid tg pid la lo ts hll hfresh hfind] at he
          exact absurd he (by simp)
        | some p =>
          rw [spec_confirm_error_eq_poi d ll now s urid tg pid la lo ts p hll hfresh hfind] at he
          by_cases hout : now - poi_last_ts s p ≤ 12 * 3600
          · rw [if_neg (not_not_intro hout)] at he
            by_cases hself : p.created_by = some urid
            · rw [if_pos hself] at he; exact absurd he (by simp)
            · rw [if_neg hself] at he
              by_cases hfar : d ⟨la, lo⟩ p.point ≤ miles_to_meters (1/2)
              · have hout' : ¬ (now - poi_last_ts s p > 12 * 3600) := not_lt.mpr hout
                have hfar' : ¬ (d ⟨la, lo⟩ p.point > miles_to_meters CONFIRM_RADIUS_MI) := by
                  simpa [CONFIRM_RADIUS_MI] using not_lt.mpr hfar
                refine ⟨confCount (if hasConf s pid urid then s
                    else { s with confirmations := s.confirmations ++ [⟨pid, urid, now⟩] }) pid,
                  if hasConf s pid urid then s
                    else { s with confirmations := s.confirmations ++ [⟨pid, urid, now⟩] }, ?_⟩
                rw [do_confirm_eq_poi d ll now s urid tg pid la lo ts p hf hll hfind]
                rw [if_neg (by simpa using hout'), if_neg (by simpa using hself),
                  if_neg (by simpa using hfar')]
              · rw [if_pos hfar] at he
                exact absurd he (by simp)
          · rw [if_pos hout] at he
            exact absurd he (by simp)
      · rw [spec_confirm_error_eq_stale d ll now s urid tg pid la lo ts hll hfresh] at he
        exact absurd he (by simp)

/-- Witness for C1: with an empty last-known-location map the spec's first
    check fails and Confirm indeed returns StaleLocation leaving the store
    unchanged. -/
theorem confirm_checks_in_order_witness :
    do_confirm zeroDist (fun _ => none) 0 (onePoiStore 0) 2 7 1 =
      some (ConfirmResult.staleLocation, onePoiStore 0) :=
  (confirm_checks_in_order zeroDist (fun _ => none) 0 (onePoiStore 0) 2 7 1).1
    ConfirmError.staleLocation rfl

theorem do_confirm_eq_stale (d : Dist) (ll : LastLoc) (now : Time) (s : Store)
    (urid tg pid : Nat) (hf : is_location_fresh ll now tg = false) :
    do_confirm d ll now s urid tg pid = some (ConfirmResult.staleLocation, s) := by
  simp [do_confirm, hf]

theorem hasConf_append_self (s : Store) (pid urid : Nat) (now : Time) :
    hasConf { s with confirmations := s.confirmations ++ [⟨pid, urid, now⟩] } pid urid = true := by
  simp [hasConf]

/-- Characterization of a successful confirmation: the returned count is the
    confirmation count of the resulting store, the (poi, user) row exists
    afterwards, a pre-existing row means the store is returned unchanged, and
    no other record set is touched. -/
theorem do_confirm_confirmed (d : Dist) (ll : LastLoc) (now : Time) (s : Store)
    (urid tg pid n : Nat) (s' : Store)
    (h : do_confirm d ll now s urid tg pid = some (ConfirmResult.confirmed n, s')) :
    n = confCount s' pid ∧ hasConf s' pid urid = true ∧
      (hasConf s pid urid = true → s' = s) ∧
      s'.pois = s.pois ∧ s'.photos = s.photos ∧ s'.subscriptions = s.subscriptions := by
  by_cases hf : is_location_fresh ll now tg = true
  · cases hll : ll tg with
    | none => rw [is_location_fresh_none hll] at hf; exact absurd hf (by simp)
    | some v =>
      obtain ⟨la, lo, ts⟩ := v
      cases hfind : find_poi s pid with
      | none =>
        rw [do_confirm_eq_notFound d ll now s urid tg pid la lo ts hf hll hfind] at h
        exact absurd h (by simp)
      | some p =>
        rw [do_confirm_eq_poi d ll now s urid tg pid la lo ts p hf hll hfind] at h
        split_ifs at h with h1 h2 h3 h4
        · exact absurd h (by simp)
        · exact absurd h (by simp)
        · exact absurd h (by simp)
        · -- pre-existing row: store unchanged
          simp only [Option.some.injEq, Prod.mk.injEq, ConfirmResult.confirmed.injEq] at h
          obtain ⟨hn, hs⟩ := h
          subst hs
          exact ⟨hn.symm, h4, fun _ => rfl, rfl, rfl, rfl⟩
        · -- fresh row appended
          simp only [Option.some.injEq, Prod.mk.injEq, ConfirmResult.confirmed.injEq] at h
          obtain ⟨hn, hs⟩ := h
          subst hs
          refine ⟨hn.symm, hasConf_append_self s pid urid now, ?_, rfl, rfl, rfl⟩
          intro hc
          exact absurd hc (by simpa using h4)
  · have hf' : is_location_fresh ll now tg = false := by simpa using hf
    rw [do_confirm_eq_stale d ll now s urid tg pid hf'] at h
    exact absurd h (by simp)

-- ===== C2 =====

/-- C2: Confirm is idempotent — if a confirmation attempt for a (POI, user)
    pair succeeds with count n and store s₁, then a later attempt for the
    same pair that also passes all checks changes nothing (s₂ = s₁), is
    treated as success with the same count m = n, and every successful
    Confirm returns the POI's stored total confirmation count. -/
theorem confirm_idempotent (d d' : Dist) (ll ll' : LastLoc) (now now' : Time)
    (s : Store) (urid tg pid n m : Nat) (s₁ s₂ : Store)
    (h1 : do_confirm d ll now s urid tg pid = some (ConfirmResult.confirmed n, s₁))
    (h2 : do_confirm d' ll' now' s₁ urid tg pid = some (ConfirmResult.confirmed m, s₂)) :
    s₂ = s₁ ∧ m = n ∧ n = confCount s₁ pid := by
  obtain ⟨hn, hhas, _, _⟩ := do_confirm_confirmed d ll now s urid tg pid n s₁ h1
  obtain ⟨hm, _, hsame, _⟩ := do_confirm_confirmed d' ll' now' s₁ urid tg pid m s₂ h2
  have hss : s₂ = s₁ := hsame hhas
  subst hss
  exact ⟨rfl, by rw [hm, hn], hn⟩

/-- Witness for C2: user row 2 confirms POI 1 twice from a fresh location;
    the second success changes nothing and both return count 1. -/
theorem confirm_idempotent_witness :
    (⟨[⟨1, "raid", "raid", none, ⟨0, 0⟩, some 100, 0⟩], [], [⟨1, 2, 0⟩], []⟩ : Store) =
        ⟨[⟨1, "raid", "raid", none, ⟨0, 0⟩, some 100, 0⟩], [], [⟨1, 2, 0⟩], []⟩ ∧
      1 = 1 ∧
      1 = confCount ⟨[⟨1, "raid", "raid", none, ⟨0, 0⟩, some 100, 0⟩], [], [⟨1, 2, 0⟩], []⟩ 1 :=
  confirm_idempotent zeroDist zeroDist (locOf7 0) (locOf7 0) 0 0 (onePoiStore 0) 2 7 1 1 1
    ⟨[⟨1, "raid", "raid", none, ⟨0, 0⟩, some 100, 0⟩], [], [⟨1, 2, 0⟩], []⟩
    ⟨[⟨1, "raid", "raid", none, ⟨0, 0⟩, some 100, 0⟩], [], [⟨1, 2, 0⟩], []⟩
    (by norm_num [do_confirm, is_location_fresh, locOf7, onePoiStore, find_poi,
      poi_last_ts, poi_conf_times, confCount, hasConf, zeroDist, miles_to_meters,
      CONFIRM_RADIUS_MI, FRESH_LOCATION_MINUTES])
    (by norm_num [do_confirm, is_location_fresh, locOf7, onePoiStore, find_poi,
      poi_last_ts, poi_conf_times, confCount, hasConf, zeroDist, miles_to_meters,
      CONFIRM_RADIUS_MI, FRESH_LOCATION_MINUTES])

-- ===== C10 =====

/-- C10: the unguarded last_loc[user_id] lookup in Confirm is safe — the
    freshness predicate is false whenever the user has no map entry, so the
    lookup is reached only when an entry exists; Confirm therefore never
    fails with a lookup error, and a requester who never sent a location
    always receives the stale-location error with the store unchanged. -/
theorem location_guard_safe (d : Dist) (ll : LastLoc) (now : Time) (s : Store)
    (urid tg pid : Nat) :
    (is_location_fresh ll now tg = true → ll tg ≠ none) ∧
    (ll tg = none → do_confirm d ll now s urid tg pid = some (ConfirmResult.staleLocation, s)) ∧
    do_confirm d ll now s urid tg pid ≠ none := by
  refine ⟨?_, ?_, ?_⟩
  · intro hf hnone
    rw [is_location_fresh_none hnone] at hf
    exact absurd hf (by simp)
  · intro hnone
    exact do_confirm_eq_stale d ll now s urid tg pid (is_location_fresh_none hnone)
  · by_cases hf : is_location_fresh ll now tg = true
    · cases hll : ll tg with
      | none => rw [is_location_fresh_none hll] at hf; exact absurd hf (by simp)
      | some v =>
        obtain ⟨la, lo, ts⟩ := v
        cases hfind : find_poi s pid with
        | none =>
          rw [do_confirm_eq_notFound d ll now s urid tg pid la lo ts hf hll hfind]
          simp
        | some p =>
          rw [do_confirm_eq_poi d ll now s urid tg pid la lo ts p hf hll hfind]
          split_ifs <;> simp
    · have hf' : is_location_fresh ll now tg = false := by simpa using hf
      rw [do_confirm_eq_stale d ll now s urid tg pid hf']
      simp

/-- Witness for C10: a user with no last-known-location entry gets the
    stale-location error from a Confirm attempt. -/
theorem location_guard_safe_witness :
    do_confirm zeroDist (fun _ => none) 5 Store.empty 3 9 2 =
      some (ConfirmResult.staleLocation, Store.empty) :=
  (location_guard_safe zeroDist (fun _ => none) 5 Store.empty 3 9 2).2.1 rfl

-- ===== C4 =====

/-- Counterexample to C4 as stated: C4 claims a POI whose effective activity
    timestamp is exactly 12h00m00s old is inactive (excluded from nearby
    results and rejected as Outdated), but the code keeps it: at
    now = 43200 s a POI last active at 0 s passes the nearby filter and a
    confirmation attempt on it succeeds instead of returning Outdated. -/
theorem poi_activity_boundary_counterexample :
    on_radius_keep zeroDist 43200 (onePoiStore 0) ⟨0, 0⟩ 100
        ⟨1, "raid", "raid", none, ⟨0, 0⟩, some 100, 0⟩ = true ∧
      do_confirm zeroDist (locOf7 43200) 43200 (onePoiStore 0) 2 7 1 =
        some (ConfirmResult.confirmed 1,
          ⟨[⟨1, "raid", "raid", none, ⟨0, 0⟩, some 100, 0⟩], [], [⟨1, 2, 43200⟩], []⟩) := by
  constructor
  · norm_num [on_radius_keep, zeroDist, onePoiStore, poi_last_ts, poi_conf_times]
  · norm_num [do_confirm, is_location_fresh, locOf7, onePoiStore, find_poi,
      poi_last_ts, poi_conf_times, confCount, hasConf, zeroDist, miles_to_meters,
      CONFIRM_RADIUS_MI, FRESH_LOCATION_MINUTES]

/-- C4 (amended): a POI is active iff now minus its effective activity
    timestamp is at most 12 hours, with the boundary on the active side —
    a POI exactly 12h00m00s old is still active (kept by the nearby filter,
    not Outdated for confirmation), one 11h59m59s old is active, and one
    12h00m01s old is inactive: excluded from nearby results, and a
    confirmation attempt that found it with a fresh location returns
    Outdated. -/
theorem poi_activity_window (d : Dist) (now : Time) (s : Store) (qpt : Point)
    (radius_m : ℚ) (p : Poi) :
    (on_radius_keep d now s qpt radius_m p = true ↔
      d p.point qpt ≤ radius_m ∧ now - poi_last_ts s p ≤ 12 * 3600) ∧
    (∀ (ll : LastLoc) (urid tg pid : Nat) (la lo : ℚ) (ts : Time),
      is_location_fresh ll now tg = true → ll tg = some (la, lo, ts) →
      find_poi s pid = some p →
      (do_confirm d ll now s urid tg pid = some (ConfirmResult.outdated, s) ↔
        ¬ (now - poi_last_ts s p ≤ 12 * 3600))) := by
  constructor
  · simp only [on_radius_keep, Bool.and_eq_true, decide_eq_true_eq]
    constructor
    · rintro ⟨hd, ha⟩
      exact ⟨hd, by linarith⟩
    · rintro ⟨hd, ha⟩
      exact ⟨hd, by linarith⟩
  · intro ll urid tg pid la lo ts hf hll hfind
    rw [do_confirm_eq_poi d ll now s urid tg pid la lo ts p hf hll hfind]
    by_cases hout : now - poi_last_ts s p ≤ 12 * 3600
    · have hout' : ¬ (now - poi_last_ts s p > 12 * 3600) := not_lt.mpr hout
      rw [if_neg (by simpa using hout')]
      constructor
      · intro h
        split_ifs at h <;> simp at h
      · intro h
        exact absurd hout h
    · have hout' : now - poi_last_ts s p > 12 * 3600 := not_le.mp hout
      rw [if_pos (by simpa using hout')]
      simp [hout]

/-- Witness for C4 (amended): a POI 12h00m01s old is rejected as Outdated. -/
theorem poi_activity_window_witness :
    do_confirm zeroDist (locOf7 43201) 43201 (onePoiStore 0) 2 7 1 =
      some (ConfirmResult.outdated, onePoiStore 0) :=
  ((poi_activity_window zeroDist 43201 (onePoiStore 0) ⟨0, 0⟩ 100
      ⟨1, "raid", "raid", none, ⟨0, 0⟩, some 100, 0⟩).2
    (locOf7 43201) 2 7 1 0 0 43201
    (by norm_num [is_location_fresh, locOf7, FRESH_LOCATION_MINUTES])
    (by simp [locOf7])
    (by simp [find_poi, onePoiStore])).mpr
    (by norm_num [poi_last_ts, poi_conf_times, onePoiStore])

-- ===== component lemmas for notify_subscribers =====

theorem notify_subscribers_pois (d : Dist) (now : Time) (s : Store) (pt : Point)
    (e : Option Nat) : (notify_subscribers d now s pt e).2.pois = s.pois := rfl

theorem notify_subscribers_photos (d : Dist) (now : Time) (s : Store) (pt : Point)
    (e : Option Nat) : (notify_subscribers d now s pt e).2.photos = s.photos := rfl

theorem notify_subscribers_confirmations (d : Dist) (now : Time) (s : Store)
    (pt : Point) (e : Option Nat) :
    (notify_subscribers d now s pt e).2.confirmations = s.confirmations := rfl

theorem notify_subscribers_subs (d : Dist) (now : Time) (s : Store) (pt : Point)
    (e : Option Nat) :
    (notify_subscribers d now s pt e).2.subscriptions =
      (lazy_expire now s).subscriptions := rfl

-- ===== mkPhotos lemmas =====

theorem mkPhotos_map_file_id (pid urid : Nat) :
    ∀ (k : Nat) (l : List String),
      (mkPhotos pid urid k l).map (fun ph => ph.file_id) = l := by
  intro k l
  induction l generalizing k with
  | nil => rfl
  | cons fid rest ih => simp [mkPhotos, ih]

theorem mkPhotos_length (pid urid : Nat) :
    ∀ (k : Nat) (l : List String), (mkPhotos pid urid k l).length = l.length := by
  intro k l
  induction l generalizing k with
  | nil => rfl
  | cons fid rest ih => simp [mkPhotos, ih]

theorem mkPhotos_poi_id (pid urid : Nat) :
    ∀ (k : Nat) (l : List String) (ph : Photo),
      ph ∈ mkPhotos pid urid k l → ph.poi_id = pid ∧ ph.user_id = some urid := by
  intro k l
  induction l generalizing k with
  | nil => intro ph h; exact absurd h (by simp [mkPhotos])
  | cons fid rest ih =>
    intro ph h
    rw [mkPhotos] at h
    rcases List.mem_cons.mp h with h | h
    · subst h; exact ⟨rfl, rfl⟩
    · exact ih (k + 1) ph h

theorem mkPhotos_seq_lb (pid urid : Nat) :
    ∀ (k : Nat) (l : List String) (ph : Photo),
      ph ∈ mkPhotos pid urid k l → k ≤ ph.seq := by
  intro k l
  induction l generalizing k with
  | nil => intro ph h; exact absurd h (by simp [mkPhotos])
  | cons fid rest ih =>
    intro ph h
    rw [mkPhotos] at h
    rcases List.mem_cons.mp h with h | h
    · subst h; exact le_refl _
    · exact Nat.le_of_succ_le (ih (k + 1) ph h)

theorem mkPhotos_seq_sorted (pid urid : Nat) :
    ∀ (k : Nat) (l : List String),
      List.Pairwise (fun a b => a.seq < b.seq) (mkPhotos pid urid k l) := by
  intro k l
  induction l generalizing k with
  | nil => exact List.Pairwise.nil
  | cons fid rest ih =>
    rw [mkPhotos]
    refine List.pairwise_cons.mpr ⟨?_, ih (k + 1)⟩
    intro ph h
    exact Nat.lt_of_succ_le (mkPhotos_seq_lb pid urid (k + 1) rest ph h)

-- ===== C5 =====

/-- C5: creation is gated by the 12h/2-POI limiter — a user whose trailing
    12h creation count is at least 2 is rejected with the store returned
    entirely unchanged (no POI row, no Photo rows, no fan-out side effect),
    and a user with fewer than 2 such POIs succeeds: the POI row is inserted
    and the notification fan-out runs exactly once, on the post-insert
    store. -/
theorem creation_rate_limited (d : Dist) (now : Time) (s : Store)
    (urid tg : Nat) (cat : String) (desc : Option String) (pt : Point)
    (fids : List String) :
    (recent_poi_count s urid now ≥ ADD_LIMIT_COUNT →
      finalize_poi_creation d now s urid tg cat desc pt fids =
        (CreateResult.rateLimited, s)) ∧
    (recent_poi_count s urid now < ADD_LIMIT_COUNT →
      ∃ recips s',
        finalize_poi_creation d now s urid tg cat desc pt fids =
          (CreateResult.created (nextPoiId s) recips, s') ∧
        s'.pois = s.pois ++ [⟨nextPoiId s, cat, cat, desc, pt, some urid, now⟩] ∧
        (recips, s') = notify_subscribers d now
          ⟨s.pois ++ [⟨nextPoiId s, cat, cat, desc, pt, some urid, now⟩],
           s.photos ++ mkPhotos (nextPoiId s) urid s.photos.length (fids.take 20),
           s.confirmations, s.subscriptions⟩ pt (some tg)) := by
  constructor
  · intro h
    rw [finalize_poi_creation, if_pos h]
  · intro h
    rw [finalize_poi_creation, if_neg (not_le.mpr h)]
    exact ⟨_, _, rfl, rfl, rfl⟩

/-- Witness for C5: a user with two POIs created in the trailing 12h is
    rejected and the store is unchanged, while on an empty store creation
    goes through. -/
theorem creation_rate_limited_witness :
    (finalize_poi_creation zeroDist 0
        ⟨[⟨1, "raid", "raid", none, ⟨0, 0⟩, some 1, 0⟩,
          ⟨2, "raid", "raid", none, ⟨0, 0⟩, some 1, 0⟩], [], [], []⟩
        1 9 "raid" none ⟨0, 0⟩ [] =
      (CreateResult.rateLimited,
        ⟨[⟨1, "raid", "raid", none, ⟨0, 0⟩, some 1, 0⟩,
          ⟨2, "raid", "raid", none, ⟨0, 0⟩, some 1, 0⟩], [], [], []⟩)) :=
  (creation_rate_limited zeroDist 0
      ⟨[⟨1, "raid", "raid", none, ⟨0, 0⟩, some 1, 0⟩,
        ⟨2, "raid", "raid", none, ⟨0, 0⟩, some 1, 0⟩], [], [], []⟩
      1 9 "raid" none ⟨0, 0⟩ []).1
    (by norm_num [recent_poi_count, ADD_LIMIT_COUNT])

-- ===== C9 =====

/-- Counterexample to C9 as stated: C9 claims one Photo row is inserted per
    supplied reference, but finalize_poi_creation only persists
    file_ids[:20] — supplying 21 references to a successful creation stores
    only 20 Photo rows. -/
theorem photos_cap_counterexample :
    (finalize_poi_creation zeroDist 0 Store.empty 1 9 "raid" none ⟨0, 0⟩
        (List.replicate 21 "x")).2.photos.length = 20 ∧
      (List.replicate 21 ("x" : String)).length = 21 := by
  constructor
  · rw [finalize_poi_creation,
      if_neg (by norm_num [recent_poi_count, Store.empty, ADD_LIMIT_COUNT])]
    simp [notify_subscribers, lazy_expire, Store.empty, mkPhotos_length]
  · simp

/-- C9 (amended): for every successful CreatePoi, one Photo row is inserted
    per reference among the first 20 supplied (references beyond the 20th
    are dropped), all attached to the new POI, in stored order (strictly
    increasing insertion sequence) equal to the order of the supplied list;
    whenever at most 20 references are supplied the persisted file ids equal
    the full supplied list. -/
theorem photos_persisted_in_order (d : Dist) (now : Time) (s : Store)
    (urid tg : Nat) (cat : String) (desc : Option String) (pt : Point)
    (fids : List String)
    (hallow : recent_poi_count s urid now < ADD_LIMIT_COUNT) :
    ∃ pid recips s',
      finalize_poi_creation d now s urid tg cat desc pt fids =
        (CreateResult.created pid recips, s') ∧
      s'.photos = s.photos ++ mkPhotos pid urid s.photos.length (fids.take 20) ∧
      s'.photos.map (fun ph => ph.file_id) =
        s.photos.map (fun ph => ph.file_id) ++ fids.take 20 ∧
      (∀ ph ∈ mkPhotos pid urid s.photos.length (fids.take 20),
        ph.poi_id = pid ∧ ph.user_id = some urid) ∧
      List.Pairwise (fun a b => a.seq < b.seq)
        (mkPhotos pid urid s.photos.length (fids.take 20)) ∧
      (fids.length ≤ 20 →
        s'.photos.map (fun ph => ph.file_id) =
          s.photos.map (fun ph => ph.file_id) ++ fids) := by
  rw [finalize_poi_creation, if_neg (not_le.mpr hallow)]
  refine ⟨nextPoiId s, _, _, rfl, rfl, ?_, ?_, ?_, ?_⟩
  · simp [notify_subscribers_photos, mkPhotos_map_file_id]
  · exact fun ph h => mkPhotos_poi_id (nextPoiId s) urid s.photos.length (fids.take 20) ph h
  · exact mkPhotos_seq_sorted (nextPoiId s) urid s.photos.length (fids.take 20)
  · intro hlen
    simp [notify_subscribers_photos, mkPhotos_map_file_id, List.take_of_length_le hlen]

/-- Witness for C9 (amended): creating a POI with two photo references on an
    empty store persists exactly those two file ids in order. -/
theorem photos_persisted_in_order_witness :
    ∃ pid recips s',
      finalize_poi_creation zeroDist 0 Store.empty 1 9 "raid" none ⟨0, 0⟩
          ["a", "b"] = (CreateResult.created pid recips, s') ∧
      s'.photos = Store.empty.photos ++
        mkPhotos pid 1 Store.empty.photos.length (["a", "b"].take 20) ∧
      s'.photos.map (fun ph => ph.file_id) =
        Store.empty.photos.map (fun ph => ph.file_id) ++ ["a", "b"].take 20 ∧
      (∀ ph ∈ mkPhotos pid 1 Store.empty.photos.length (["a", "b"].take 20),
        ph.poi_id = pid ∧ ph.user_id = some 1) ∧
      List.Pairwise (fun a b => a.seq < b.seq)
        (mkPhotos pid 1 Store.empty.photos.length (["a", "b"].take 20)) ∧
      (["a", "b"].length ≤ 20 →
        s'.photos.map (fun ph => ph.file_id) =
          Store.empty.photos.map (fun ph => ph.file_id) ++ ["a", "b"]) :=
  photos_persisted_in_order zeroDist 0 Store.empty 1 9 "raid" none ⟨0, 0⟩
    ["a", "b"] (by norm_num [recent_poi_count, Store.empty, ADD_LIMIT_COUNT])

-- ===== fan-out membership =====

theorem lazy_expire_subs_eq (now : Time) (s : Store) :
    (lazy_expire now s).subscriptions = s.subscriptions.map (fun sub =>
      if sub.is_active && decide (sub.last_refreshed_at < now - thirtyDays) then
        { sub with is_active := false }
      else sub) := rfl

/-- A subscription row surviving the fan-out SELECT's predicate after lazy
    expiry is exactly a row of the original store satisfying it: expiry only
    flips rows the predicate would reject anyway. -/
theorem mem_expired_filter (d : Dist) (now : Time) (s : Store) (pt : Point)
    (sub : Subscription) :
    (sub ∈ (lazy_expire now s).subscriptions ∧
      (sub.is_active && decide (sub.last_refreshed_at ≥ now - thirtyDays)
        && decide (d sub.center pt ≤ sub.radius_m)) = true) ↔
    (sub ∈ s.subscriptions ∧
      (sub.is_active && decide (sub.last_refreshed_at ≥ now - thirtyDays)
        && decide (d sub.center pt ≤ sub.radius_m)) = true) := by
  rw [lazy_expire_subs_eq]
  constructor
  · rintro ⟨hmem, hf⟩
    obtain ⟨sub₀, hmem₀, hfn⟩ := List.mem_map.mp hmem
    by_cases hcond : (sub₀.is_active && decide (sub₀.last_refreshed_at < now - thirtyDays)) = true
    · rw [if_pos hcond] at hfn
      subst hfn
      simp at hf
    · rw [if_neg hcond] at hfn
      subst hfn
      exact ⟨hmem₀, hf⟩
  · rintro ⟨hmem, hf⟩
    refine ⟨List.mem_map.mpr ⟨sub, hmem, ?_⟩, hf⟩
    simp only [Bool.and_eq_true, decide_eq_true_eq] at hf
    obtain ⟨⟨hact, hge⟩, _⟩ := hf
    rw [if_neg]
    simp only [Bool.and_eq_true, decide_eq_true_eq, not_and]
    intro _
    exact not_lt.mpr hge

/-- Membership in the fan-out recipient list: exactly the owners of an
    active, 30-day-fresh subscription whose geofence contains the point,
    minus the excluded id. -/
theorem notify_subscribers_mem (d : Dist) (now : Time) (s : Store) (pt : Point)
    (excl : Option Nat) (tg : Nat) :
    tg ∈ (notify_subscribers d now s pt excl).1 ↔
      ((∃ sub ∈ s.subscriptions, sub.tg_user_id = tg ∧ sub.is_active = true ∧
          now - sub.last_refreshed_at ≤ thirtyDays ∧ d sub.center pt ≤ sub.radius_m) ∧
        exclude_matches excl tg = false) := by
  unfold notify_subscribers
  simp only [List.mem_filter, List.mem_dedup, List.mem_map, Bool.not_eq_true']
  constructor
  · rintro ⟨⟨sub, ⟨hmemL, hfL⟩, htg⟩, hex⟩
    have h := (mem_expired_filter d now s pt sub).mp ⟨hmemL, hfL⟩
    obtain ⟨hmem', hf⟩ := h
    simp only [Bool.and_eq_true, decide_eq_true_eq] at hf
    obtain ⟨⟨hact, hge⟩, hdist⟩ := hf
    exact ⟨⟨sub, hmem', htg, hact, by linarith, hdist⟩, hex⟩
  · rintro ⟨⟨sub, hmem, htg, hact, hfresh, hdist⟩, hex⟩
    refine ⟨⟨sub, (mem_expired_filter d now s pt sub).mpr ⟨hmem, ?_⟩, htg⟩, hex⟩
    simp only [Bool.and_eq_true, decide_eq_true_eq]
    exact ⟨⟨hact, by linarith⟩, hdist⟩

theorem notify_subscribers_nodup (d : Dist) (now : Time) (s : Store) (pt : Point)
    (excl : Option Nat) : (notify_subscribers d now s pt excl).1.Nodup := by
  unfold notify_subscribers
  exact (List.nodup_dedup _).filter _

-- ===== C6 =====

/-- C6: on every successful POI creation, the fan-out engine runs lazy
    expiry (the resulting store's subscriptions are the lazily-expired
    ones), then notifies exactly the owners of an eligible subscription
    (active and refreshed within 30 days) whose geofence contains the new
    POI's point, deduplicated by owning user, excluding the creator; in
    particular the creator is never notified, even of a POI inside their
    own subscribed geofence. -/
theorem fanout_excludes_creator (d : Dist) (now : Time) (s : Store)
    (urid tg : Nat) (cat : String) (desc : Option String) (pt : Point)
    (fids : List String)
    (hallow : recent_poi_count s urid now < ADD_LIMIT_COUNT) (htg : tg ≠ 0) :
    ∃ pid recips s',
      finalize_poi_creation d now s urid tg cat desc pt fids =
        (CreateResult.created pid recips, s') ∧
      tg ∉ recips ∧
      (∀ u, u ∈ recips ↔
        ((∃ sub ∈ s.subscriptions, sub.tg_user_id = u ∧ sub.is_active = true ∧
          now - sub.last_refreshed_at ≤ thirtyDays ∧ d sub.center pt ≤ sub.radius_m) ∧
          u ≠ tg)) ∧
      s'.subscriptions = (lazy_expire now s).subscriptions ∧
      recips.Nodup := by
  rw [finalize_poi_creation, if_neg (not_le.mpr hallow)]
  have hmem : ∀ u, u ∈ (notify_subscribers d now
      ⟨s.pois ++ [⟨nextPoiId s, cat, cat, desc, pt, some urid, now⟩],
       s.photos ++ mkPhotos (nextPoiId s) urid s.photos.length (fids.take 20),
       s.confirmations, s.subscriptions⟩ pt (some tg)).1 ↔
      ((∃ sub ∈ s.subscriptions, sub.tg_user_id = u ∧ sub.is_active = true ∧
        now - sub.last_refreshed_at ≤ thirtyDays ∧ d sub.center pt ≤ sub.radius_m) ∧
        u ≠ tg) := by
    intro u
    rw [notify_subscribers_mem]
    constructor
    · rintro ⟨hsub, hex⟩
      refine ⟨hsub, ?_⟩
      simp only [exclude_matches, decide_eq_true_eq, Bool.and_eq_false_iff,
        decide_eq_false_iff_not, not_not, beq_eq_false_iff_ne] at hex
      rcases hex with h | h
      · exact absurd h htg
      · exact h
    · rintro ⟨hsub, hne⟩
      refine ⟨hsub, ?_⟩
      simp [exclude_matches, htg, hne]
  refine ⟨nextPoiId s, _, _, rfl, ?_, hmem, rfl, notify_subscribers_nodup d now _ pt (some tg)⟩
  intro hin
  exact ((hmem tg).mp hin).2 rfl

/-- Witness for C6: user 5 has a fresh active subscription containing the
    point; creator tg 9 makes a POI there — the conclusion characterizes
    the recipient list and 9 is not in it. -/
theorem fanout_excludes_creator_witness :
    ∃ pid recips s',
      finalize_poi_creation zeroDist 0
          ⟨[], [], [], [⟨1, 5, ⟨0, 0⟩, 1000, true, 0, 0⟩]⟩ 1 9 "raid" none ⟨0, 0⟩ [] =
        (CreateResult.created pid recips, s') ∧
      9 ∉ recips ∧
      (∀ u, u ∈ recips ↔
        ((∃ sub ∈ (⟨[], [], [], [⟨1, 5, ⟨0, 0⟩, 1000, true, 0, 0⟩]⟩ : Store).subscriptions,
          sub.tg_user_id = u ∧ sub.is_active = true ∧
          (0 : ℚ) - sub.last_refreshed_at ≤ thirtyDays ∧
          zeroDist sub.center ⟨0, 0⟩ ≤ sub.radius_m) ∧ u ≠ 9)) ∧
      s'.subscriptions =
        (lazy_expire 0 ⟨[], [], [], [⟨1, 5, ⟨0, 0⟩, 1000, true, 0, 0⟩]⟩).subscriptions ∧
      recips.Nodup :=
  fanout_excludes_creator zeroDist 0 ⟨[], [], [], [⟨1, 5, ⟨0, 0⟩, 1000, true, 0, 0⟩]⟩
    1 9 "raid" none ⟨0, 0⟩ []
    (by norm_num [recent_poi_count, ADD_LIMIT_COUNT]) (by norm_num)

-- ===== C7 =====

/-- A store holding a single subscription of user 5, active but last
    refreshed at time 0. -/
def staleSubStore : Store := ⟨[], [], [], [⟨1, 5, ⟨0, 0⟩, 1000, true, 0, 0⟩]⟩

/-- Counterexample to C7 as stated: C7 claims every read that decides
    subscription eligibility recomputes the 30-day bound, but the
    subscription-badge read reports the stored active flag alone — at
    now = 2678400 s (31 days) user 5's subscription, last refreshed at 0, is
    past its 30-day bound and has_active_subscription correctly says false,
    yet the badge read still reports it as active (green). -/
theorem badge_no_recompute_counterexample :
    (get_subscription_badge staleSubStore 5).map (fun b => b.1) = some true ∧
      ¬ ((2678400 : ℚ) - (0 : ℚ) ≤ thirtyDays) ∧
      has_active_subscription 2678400 staleSubStore 5 = false := by
  refine ⟨?_, ?_, ?_⟩
  · simp [get_subscription_badge, latest_subscription, staleSubStore]
  · norm_num [thirtyDays]
  · norm_num [has_active_subscription, staleSubStore, thirtyDays]

/-- C7 (amended): the reads that gate behavior on subscription eligibility —
    has_active_subscription and the fan-out recipient selection — recompute
    `active ∧ now − last_refreshed_at ≤ 30 days` at read time, so a user all
    of whose subscription rows are stale or inactive is never treated as
    eligible by them, independently of whether lazy expiry has flipped the
    stored flag; the badge-display read, however, reports the stored active
    flag without recomputing the 30-day bound. -/
theorem eligibility_recomputed_at_read (now : Time) (s : Store) (uid : Nat)
    (d : Dist) (pt : Point) (excl : Option Nat)
    (hstale : ∀ sub ∈ s.subscriptions, sub.tg_user_id = uid →
      ¬ (sub.is_active = true ∧ now - sub.last_refreshed_at ≤ thirtyDays)) :
    has_active_subscription now s uid = false ∧
      uid ∉ (notify_subscribers d now s pt excl).1 := by
  constructor
  · rw [has_active_subscription]
    rw [List.any_eq_false]
    intro sub hmem
    simp only [Bool.and_eq_true, decide_eq_true_eq, not_and, beq_iff_eq]
    rintro ⟨htg, hact⟩
    intro hge
    exact hstale sub hmem htg ⟨hact, by linarith⟩
  · intro hin
    obtain ⟨⟨sub, hmem, htg, hact, hfresh, _⟩, _⟩ :=
      (notify_subscribers_mem d now s pt excl uid).mp hin
    exact hstale sub hmem htg ⟨hact, hfresh⟩

/-- Witness for C7 (amended): at 31 days the stale subscription of user 5 is
    invisible both to has_active_subscription and to the fan-out. -/
theorem eligibility_recomputed_at_read_witness :
    has_active_subscription 2678400 staleSubStore 5 = false ∧
      5 ∉ (notify_subscribers zeroDist 2678400 staleSubStore ⟨0, 0⟩ none).1 :=
  eligibility_recomputed_at_read 2678400 staleSubStore 5 zeroDist ⟨0, 0⟩ none
    (by
      intro sub hmem htg
      simp only [staleSubStore, List.mem_singleton] at hmem
      subst hmem
      rintro ⟨-, hfresh⟩
      norm_num [thirtyDays] at hfresh)

-- ===== C8 =====

/-- The subscription rows of one user. -/
def subs_of (s : Store) (uid : Nat) : List Subscription :=
  s.subscriptions.filter (fun sub => sub.tg_user_id == uid)

theorem filter_eq_of_filter_ne (uid : Nat) :
    ∀ l : List Subscription,
      (l.filter (fun sub => sub.tg_user_id != uid)).filter
        (fun sub => sub.tg_user_id == uid) = [] := by
  intro l
  induction l with
  | nil => rfl
  | cons sub rest ih =>
    by_cases h : sub.tg_user_id = uid
    · simp [List.filter_cons, h, ih]
    · simp [List.filter_cons, h, ih]

/-- C8: SetSubscription is idempotent in effect — one call leaves the user
    with exactly one subscription row, active and stamped
    last_refreshed_at = now; a second call with the same radius again leaves
    exactly one row, and that row is eligible (the user ends with exactly
    one eligible subscription). -/
theorem set_subscription_idempotent (now now' : Time) (s : Store) (uid : Nat)
    (pt : Point) (r : ℚ) :
    subs_of (on_track_radius now s uid pt r) uid =
      [⟨nextSubId s, uid, pt, r, true, now, now⟩] ∧
    subs_of (on_track_radius now' (on_track_radius now s uid pt r) uid pt r) uid =
      [⟨nextSubId (on_track_radius now s uid pt r), uid, pt, r, true, now', now'⟩] ∧
    ((on_track_radius now' (on_track_radius now s uid pt r) uid pt r).subscriptions.filter
      (fun sub => sub.tg_user_id == uid && sub.is_active &&
        decide (sub.last_refreshed_at ≥ now' - thirtyDays))).length = 1 := by
  refine ⟨?_, ?_, ?_⟩
  · rw [subs_of, on_track_radius]
    rw [List.filter_append, filter_eq_of_filter_ne uid]
    simp
  · rw [subs_of, on_track_radius]
    rw [List.filter_append, filter_eq_of_filter_ne uid]
    simp
  · rw [on_track_radius]
    rw [List.filter_append]
    have h30 : (decide (now' ≥ now' - thirtyDays)) = true := by
      simp only [decide_eq_true_eq]
      norm_num [thirtyDays]
    have h1 : (((on_track_radius now s uid pt r).subscriptions.filter
        (fun sub => sub.tg_user_id != uid)).filter
        (fun sub => sub.tg_user_id == uid && sub.is_active &&
          decide (sub.last_refreshed_at ≥ now' - thirtyDays))).length = 0 := by
      rw [List.length_eq_zero]
      have hsub : ∀ sub ∈ (on_track_radius now s uid pt r).subscriptions.filter
          (fun sub => sub.tg_user_id != uid),
          ¬ ((fun sub => sub.tg_user_id == uid && sub.is_active &&
            decide (sub.last_refreshed_at ≥ now' - thirtyDays)) sub = true) := by
        intro sub hmem hp
        have hne := (List.mem_filter.mp hmem).2
        simp only [bne_iff_ne, ne_eq] at hne
        simp only [Bool.and_eq_true, beq_iff_eq] at hp
        exact hne hp.1.1
      rw [List.filter_eq_nil_iff]
      exact hsub
    rw [List.length_append, h1]
    simp [h30, thirtyDays]

-- ===== C3: reachability machinery =====

theorem mem_le_foldr_max : ∀ (l : List Nat) (x : Nat), x ∈ l → x ≤ l.foldr max 0 := by
  intro l
  induction l with
  | nil => intro x h; exact absurd h (List.not_mem_nil x)
  | cons a rest ih =>
    intro x h
    rcases List.mem_cons.mp h with h | h
    · subst h; exact le_max_left _ _
    · exact le_trans (ih x h) (le_max_right _ _)

theorem poi_id_lt_nextPoiId (s : Store) (p : Poi) (h : p ∈ s.pois) :
    p.id < nextPoiId s := by
  have : p.id ∈ s.pois.map (fun q => q.id) := List.mem_map.mpr ⟨p, h, rfl⟩
  exact Nat.lt_succ_of_le (mem_le_foldr_max _ _ this)

theorem find_poi_mem (s : Store) (pid : Nat) (p : Poi)
    (h : find_poi s pid = some p) : p ∈ s.pois ∧ p.id = pid := by
  refine ⟨List.mem_of_find?_eq_some h, ?_⟩
  have := List.find?_some h
  simpa using this

theorem mem_eq_of_map_nodup {α β : Type} (f : α → β) :
    ∀ (l : List α), (l.map f).Nodup → ∀ a ∈ l, ∀ b ∈ l, f a = f b → a = b := by
  intro l
  induction l with
  | nil => intro _ a ha; exact absurd ha (List.not_mem_nil a)
  | cons x rest ih =>
    intro hnd a ha b hb hf
    rw [List.map_cons, List.nodup_cons] at hnd
    obtain ⟨hx, hrest⟩ := hnd
    rcases List.mem_cons.mp ha with ha1 | ha1
    · rcases List.mem_cons.mp hb with hb1 | hb1
      · rw [ha1, hb1]
      · subst ha1
        exact absurd (List.mem_map.mpr ⟨b, hb1, hf.symm⟩) hx
    · rcases List.mem_cons.mp hb with hb1 | hb1
      · subst hb1
        exact absurd (List.mem_map.mpr ⟨a, ha1, hf⟩) hx
      · exact ih hrest a ha1 b hb1 hf

/-- Store effect of a confirmation attempt: only the confirmation set can
    change, and only by appending one row for a non-creator requester. -/
theorem do_confirm_store_cases (d : Dist) (ll : LastLoc) (now : Time)
    (s : Store) (urid tg pid : Nat) (r : ConfirmResult) (s' : Store)
    (h : do_confirm d ll now s urid tg pid = some (r, s')) :
    s'.pois = s.pois ∧ s'.photos = s.photos ∧ s'.subscriptions = s.subscriptions ∧
      (s'.confirmations = s.confirmations ∨
        ∃ p, find_poi s pid = some p ∧ ¬ (p.created_by = some urid) ∧
          s'.confirmations = s.confirmations ++ [⟨pid, urid, now⟩]) := by
  by_cases hf : is_location_fresh ll now tg = true
  · cases hll : ll tg with
    | none => rw [is_location_fresh_none hll] at hf; exact absurd hf (by simp)
    | some v =>
      obtain ⟨la, lo, ts⟩ := v
      cases hfind : find_poi s pid with
      | none =>
        rw [do_confirm_eq_notFound d ll now s urid tg pid la lo ts hf hll hfind] at h
        simp only [Option.some.injEq, Prod.mk.injEq] at h
        rw [← h.2]
        exact ⟨rfl, rfl, rfl, Or.inl rfl⟩
      | some p =>
        rw [do_confirm_eq_poi d ll now s urid tg pid la lo ts p hf hll hfind] at h
        split_ifs at h with h1 h2 h3 h4
        · simp only [Option.some.injEq, Prod.mk.injEq] at h
          rw [← h.2]
          exact ⟨rfl, rfl, rfl, Or.inl rfl⟩
        · simp only [Option.some.injEq, Prod.mk.injEq] at h
          rw [← h.2]
          exact ⟨rfl, rfl, rfl, Or.inl rfl⟩
        · simp only [Option.some.injEq, Prod.mk.injEq] at h
          rw [← h.2]
          exact ⟨rfl, rfl, rfl, Or.inl rfl⟩
        · simp only [Option.some.injEq, Prod.mk.injEq] at h
          rw [← h.2]
          exact ⟨rfl, rfl, rfl, Or.inl rfl⟩
        · simp only [Option.some.injEq, Prod.mk.injEq] at h
          rw [← h.2]
          refine ⟨rfl, rfl, rfl, Or.inr ⟨p, rfl, ?_, rfl⟩⟩
          intro hc
          exact h2 (by simp [hc])
  · have hf' : is_location_fresh ll now tg = false := by simpa using hf
    rw [do_confirm_eq_stale d ll now s urid tg pid hf'] at h
    simp only [Option.some.injEq, Prod.mk.injEq] at h
    rw [← h.2]
    exact ⟨rfl, rfl, rfl, Or.inl rfl⟩

/-- Store effect of a creation attempt: confirmations are never touched and
    the POI set either stays or grows by one row carrying a fresh id. -/
theorem finalize_store_cases (d : Dist) (now : Time) (s : Store)
    (urid tg : Nat) (cat : String) (desc : Option String) (pt : Point)
    (fids : List String) (r : CreateResult) (s' : Store)
    (h : finalize_poi_creation d now s urid tg cat desc pt fids = (r, s')) :
    s'.confirmations = s.confirmations ∧
      (s'.pois = s.pois ∨
        s'.pois = s.pois ++ [⟨nextPoiId s, cat, cat, desc, pt, some urid, now⟩]) := by
  rw [finalize_poi_creation] at h
  by_cases hlim : recent_poi_count s urid now ≥ ADD_LIMIT_COUNT
  · rw [if_pos hlim] at h
    simp only [Prod.mk.injEq] at h
    rw [← h.2]
    exact ⟨rfl, Or.inl rfl⟩
  · rw [if_neg hlim] at h
    simp only [Prod.mk.injEq] at h
    rw [← h.2]
    exact ⟨rfl, Or.inr rfl⟩

/-- No confirmation row is signed by its POI's creator. -/
def NoSelfConf (s : Store) : Prop :=
  ∀ c ∈ s.confirmations, ∀ p ∈ s.pois, p.id = c.poi_id →
    p.created_by ≠ some c.user_id

/-- Every confirmation references an existing POI (the FOREIGN KEY). -/
def ConfRefsPoi (s : Store) : Prop :=
  ∀ c ∈ s.confirmations, ∃ p ∈ s.pois, p.id = c.poi_id

/-- POI primary keys are unique. -/
def PoiIdsNodup (s : Store) : Prop := (s.pois.map (fun p => p.id)).Nodup

def StoreInv (s : Store) : Prop := NoSelfConf s ∧ ConfRefsPoi s ∧ PoiIdsNodup s

theorem storeInv_of_eq (s s' : Store) (hp : s'.pois = s.pois)
    (hc : s'.confirmations = s.confirmations) (hinv : StoreInv s) : StoreInv s' := by
  obtain ⟨hns, hfk, hnd⟩ := hinv
  refine ⟨?_, ?_, ?_⟩
  · intro c hcm q hqm hid
    rw [hc] at hcm
    rw [hp] at hqm
    exact hns c hcm q hqm hid
  · intro c hcm
    rw [hc] at hcm
    obtain ⟨p, hpm, hpid⟩ := hfk c hcm
    exact ⟨p, by rw [hp]; exact hpm, hpid⟩
  · show (s'.pois.map (fun p => p.id)).Nodup
    rw [hp]
    exact hnd

theorem storeInv_confirm (d : Dist) (ll : LastLoc) (now : Time) (s : Store)
    (urid tg pid : Nat) (r : ConfirmResult) (s' : Store)
    (h : do_confirm d ll now s urid tg pid = some (r, s'))
    (hinv : StoreInv s) : StoreInv s' := by
  obtain ⟨hpois, _, _, hconf⟩ :=
    do_confirm_store_cases d ll now s urid tg pid r s' h
  rcases hconf with hsame | ⟨p, hfind, hself, happ⟩
  · exact storeInv_of_eq s s' hpois hsame hinv
  · obtain ⟨hns, hfk, hnd⟩ := hinv
    obtain ⟨hpm, hpid⟩ := find_poi_mem s pid p hfind
    refine ⟨?_, ?_, ?_⟩
    · intro c hcm q hqm hid
      rw [happ] at hcm
      rw [hpois] at hqm
      rcases List.mem_append.mp hcm with hcm | hcm
      · exact hns c hcm q hqm hid
      · have hc : c = ⟨pid, urid, now⟩ := by simpa using hcm
        subst hc
        have hnd' : (s.pois.map (fun x => x.id)).Nodup := hnd
        have hid' : q.id = pid := hid
        have : q = p := mem_eq_of_map_nodup (fun x => x.id) s.pois hnd' q hqm p hpm
          (by show q.id = p.id; rw [hpid]; exact hid')
        subst this
        simpa using hself
    · intro c hcm
      rw [happ] at hcm
      rcases List.mem_append.mp hcm with hcm | hcm
      · obtain ⟨p₀, hpm₀, hpid₀⟩ := hfk c hcm
        exact ⟨p₀, by rw [hpois]; exact hpm₀, hpid₀⟩
      · have hc : c = ⟨pid, urid, now⟩ := by simpa using hcm
        subst hc
        exact ⟨p, by rw [hpois]; exact hpm, hpid⟩
    · show (s'.pois.map (fun q => q.id)).Nodup
      rw [hpois]
      exact hnd

theorem storeInv_create (d : Dist) (now : Time) (s : Store)
    (urid tg : Nat) (cat : String) (desc : Option String) (pt : Point)
    (fids : List String) (r : CreateResult) (s' : Store)
    (h : finalize_poi_creation d now s urid tg cat desc pt fids = (r, s'))
    (hinv : StoreInv s) : StoreInv s' := by
  obtain ⟨hconf, hpois⟩ :=
    finalize_store_cases d now s urid tg cat desc pt fids r s' h
  rcases hpois with hsame | happ
  · exact storeInv_of_eq s s' hsame hconf hinv
  · obtain ⟨hns, hfk, hnd⟩ := hinv
    refine ⟨?_, ?_, ?_⟩
    · intro c hcm q hqm hid
      rw [hconf] at hcm
      rw [happ] at hqm
      rcases List.mem_append.mp hqm with hqm | hqm
      · exact hns c hcm q hqm hid
      · have hq : q = ⟨nextPoiId s, cat, cat, desc, pt, some urid, now⟩ := by
          simpa using hqm
        subst hq
        obtain ⟨p₀, hpm₀, hpid₀⟩ := hfk c hcm
        have hlt := poi_id_lt_nextPoiId s p₀ hpm₀
        rw [hpid₀] at hlt
        simp only at hid
        rw [hid] at hlt
        exact absurd hlt (lt_irrefl _)
    · intro c hcm
      rw [hconf] at hcm
      obtain ⟨p₀, hpm₀, hpid₀⟩ := hfk c hcm
      exact ⟨p₀, by rw [happ]; exact List.mem_append_left _ hpm₀, hpid₀⟩
    · show (s'.pois.map (fun q => q.id)).Nodup
      rw [happ, List.map_append]
      rw [List.nodup_append]
      have hnd' : (s.pois.map (fun q => q.id)).Nodup := hnd
      refine ⟨hnd', List.nodup_singleton _, ?_⟩
      intro a ha hb
      have hb' : a = nextPoiId s := by simpa using hb
      obtain ⟨p₀, hpm₀, hpid₀⟩ := List.mem_map.mp ha
      have := poi_id_lt_nextPoiId s p₀ hpm₀
      rw [hpid₀, hb'] at this
      exact absurd this (lt_irrefl _)

-- ===== C3: the program's operations as a step relation =====

/-- One operator-triggered store transition of the program: a confirmation
    attempt, a POI creation attempt, setting a tracking radius, a location
    update refreshing the subscription, a deactivation, or a lazy-expiry
    sweep. -/
inductive Step (d : Dist) : Store → Store → Prop where
  | confirm : ∀ (ll : LastLoc) (now : Time) (urid tg pid : Nat)
      (r : ConfirmResult) (s s' : Store),
      do_confirm d ll now s urid tg pid = some (r, s') → Step d s s'
  | create : ∀ (now : Time) (urid tg : Nat) (cat : String)
      (desc : Option String) (pt : Point) (fids : List String)
      (r : CreateResult) (s s' : Store),
      finalize_poi_creation d now s urid tg cat desc pt fids = (r, s') →
      Step d s s'
  | setRadius : ∀ (now : Time) (uid : Nat) (pt : Point) (r : ℚ) (s : Store),
      Step d s (on_track_radius now s uid pt r)
  | refreshLoc : ∀ (now : Time) (uid : Nat) (pt : Point) (s : Store),
      Step d s (refresh_on_location now s uid pt)
  | deactivate : ∀ (uid : Nat) (s : Store),
      Step d s (deactivate_tracking s uid)
  | lazyExp : ∀ (now : Time) (s : Store),
      Step d s (lazy_expire now s)

/-- Stores reachable from the empty store through the program's
    operations. -/
inductive Reachable (d : Dist) : Store → Prop where
  | init : Reachable d Store.empty
  | step : ∀ (s s' : Store), Reachable d s → Step d s s' → Reachable d s'

theorem reachable_storeInv (d : Dist) (s : Store) (h : Reachable d s) :
    StoreInv s := by
  induction h with
  | init =>
    refine ⟨?_, ?_, ?_⟩
    · intro c hc; exact absurd hc (List.not_mem_nil c)
    · intro c hc; exact absurd hc (List.not_mem_nil c)
    · exact List.nodup_nil
  | step s s' hr hstep ih =>
    cases hstep with
    | confirm ll now urid tg pid r _ _ hdo =>
      exact storeInv_confirm d ll now s urid tg pid r s' hdo ih
    | create now urid tg cat desc pt fids r _ _ hfin =>
      exact storeInv_create d now s urid tg cat desc pt fids r s' hfin ih
    | setRadius now uid pt r _ => exact storeInv_of_eq s _ rfl rfl ih
    | refreshLoc now uid pt _ => exact storeInv_of_eq s _ rfl rfl ih
    | deactivate uid _ => exact storeInv_of_eq s _ rfl rfl ih
    | lazyExp now _ => exact storeInv_of_eq s _ rfl rfl ih

-- ===== C3 =====

/-- C3: in every store state reachable through the program's operations, no
    Confirmation row is signed by the POI's creator; and a creator's Confirm
    attempt on their own POI never succeeds, whatever the location freshness
    or distance. -/
theorem no_self_confirmation (d : Dist) (s : Store) :
    (Reachable d s → ∀ c ∈ s.confirmations, ∀ p ∈ s.pois,
      p.id = c.poi_id → p.created_by ≠ some c.user_id) ∧
    (∀ (ll : LastLoc) (now : Time) (urid tg pid n : Nat) (p : Poi) (s' : Store),
      find_poi s pid = some p → p.created_by = some urid →
      do_confirm d ll now s urid tg pid ≠
        some (ConfirmResult.confirmed n, s')) := by
  constructor
  · intro h
    exact (reachable_storeInv d s h).1
  · intro ll now urid tg pid n p s' hfind hcreator h
    by_cases hf : is_location_fresh ll now tg = true
    · cases hll : ll tg with
      | none => rw [is_location_fresh_none hll] at hf; exact absurd hf (by simp)
      | some v =>
        obtain ⟨la, lo, ts⟩ := v
        rw [do_confirm_eq_poi d ll now s urid tg pid la lo ts p hf hll hfind] at h
        split_ifs at h with h1 h2 h3 h4
        · simp at h
        · simp at h
        · exact h2 (by simp [hcreator])
        · exact h2 (by simp [hcreator])
        · exact h2 (by simp [hcreator])
    · have hf' : is_location_fresh ll now tg = false := by simpa using hf
      rw [do_confirm_eq_stale d ll now s urid tg pid hf'] at h
      simp at h

/-- Witness for C3: the creator (user row 100) of POI 1 cannot confirm it
    even with a perfectly fresh location at distance zero. -/
theorem no_self_confirmation_witness :
    do_confirm zeroDist (locOf7 0) 0 (onePoiStore 0) 100 7 1 ≠
      some (ConfirmResult.confirmed 1, onePoiStore 0) :=
  (no_self_confirmation zeroDist (onePoiStore 0)).2 (locOf7 0) 0 100 7 1 1
    ⟨1, "raid", "raid", none, ⟨0, 0⟩, some 100, 0⟩ (onePoiStore 0)
    (by simp [find_poi, onePoiStore]) rfl

end IceRadar
